import Mathlib

/-!
Verification of the support-structure generation core (pyslm/support/support.py)
against its natural-language specification.

The development shallowly embeds the parts of the code the claims are about:
pure numeric computations become functions over `ℚ` (or `ℝ` where real
trigonometry is involved), the stateful Python objects become explicit record
states, external geometry backends (CSG, rasterisation, contour finding,
polygon clipping) become oracle inputs whose observable results are recorded in
environment records, and Python exceptions become `Except String`.
-/

namespace Pyslm

/-! ## SupportStructure state and convenience area methods (support.py 52-165) -/

/-- Observable data of a `trimesh.Trimesh` support surface: its surface area
and the area of the polygon returned by `flattenSupportRegion` on it.  Both are
values the external geometry library computes, so here they are plain data. -/
structure Mesh where
  area : ℚ
  flattenedArea : ℚ
  deriving DecidableEq

/-- State of a `SupportStructure` relevant to the convenience area methods:
the (optional) originating support surface.  `None` in Python is `none`. -/
structure SupportStructureState where
  supportSurface : Option Mesh
  deriving DecidableEq

/-- Embeds `SupportStructure.projectedSupportArea` (support.py 120-129):
`if self._supportSurface: return self.flattenSupportRegion(self._supportSurface).area
else: return 0.0`. -/
def projectedSupportArea (s : SupportStructureState) : ℚ :=
  match s.supportSurface with
  | some surf => surf.flattenedArea
  | none => 0

/-- Embeds `SupportStructure.supportArea` (support.py 131-138):
`return self._supportSurface.area if self._supportSurface else 0.0`. -/
def supportArea (s : SupportStructureState) : ℚ :=
  match s.supportSurface with
  | some surf => surf.area
  | none => 0

/-! ## GridBlockSupport tooth parameters (support.py 1085-1204, 1442-1467) -/

/-- Tooth-geometry attributes of `GridBlockSupport` (and the same attributes of
`GridBlockSupportGenerator`, which stores and accesses them identically). -/
structure GridBlockSupportState where
  supportTeethHeightAttr : ℚ
  supportTeethTopLengthAttr : ℚ
  supportTeethBottomLengthAttr : ℚ
  supportTeethBaseIntervalAttr : ℚ
  supportTeethUpperPenetrationAttr : ℚ
  deriving DecidableEq

/-- Default attribute values assigned in `GridBlockSupport.__init__`
(support.py 1102-1106): 1.5, 0.1, 1.5, 0.2, 0.2 mm. -/
def gridBlockSupportDefaults : GridBlockSupportState :=
  { supportTeethHeightAttr := 3/2
    supportTeethTopLengthAttr := 1/10
    supportTeethBottomLengthAttr := 3/2
    supportTeethBaseIntervalAttr := 1/5
    supportTeethUpperPenetrationAttr := 1/5 }

/-- Embeds the `supportTeethBottomLength` property getter (support.py
1176-1181): the source body is `return self._supportTeethTopLength`. -/
def supportTeethBottomLength (s : GridBlockSupportState) : ℚ :=
  s.supportTeethTopLengthAttr

/-- Embeds the `supportTeethBottomLength` property setter (support.py
1183-1185): `self._supportTeethBottomLength = bottomLength`. -/
def setSupportTeethBottomLength (s : GridBlockSupportState) (bottomLength : ℚ) :
    GridBlockSupportState :=
  { s with supportTeethBottomLengthAttr := bottomLength }

/-- Embeds the `supportTeethTopLength` property getter (support.py 1165-1170). -/
def supportTeethTopLength (s : GridBlockSupportState) : ℚ :=
  s.supportTeethTopLengthAttr

/-- Embeds `GridBlockSupport.toothProfile` (support.py 1442-1467): build the
five-vertex pattern from the private attributes, then shift the y column by
`-p_a` and by `+_supportTeethUpperPenetration`. -/
def toothProfile (s : GridBlockSupportState) : List (ℚ × ℚ) :=
  let p_a := s.supportTeethHeightAttr
  let p_b := s.supportTeethTopLengthAttr
  let p_c := s.supportTeethBottomLengthAttr
  let p_d := s.supportTeethBaseIntervalAttr
  let toothPattern : List (ℚ × ℚ) :=
    [(0, 0), ((p_c - p_b) / 2, p_a), ((p_c - p_b) / 2 + p_b, p_a), (p_c, 0), (p_c + p_d, 0)]
  let shiftedDown := toothPattern.map (fun v => (v.1, v.2 - p_a))
  shiftedDown.map (fun v => (v.1, v.2 + s.supportTeethUpperPenetrationAttr))

/-! ## Depth-map combination (support.py 599-633) -/

/-- Embeds `np.flipud` on an image represented as a function of (row, column)
with `nrows` rows. -/
def flipud (nrows : ℕ) (img : ℕ → ℕ → ℚ) : ℕ → ℕ → ℚ :=
  fun i j => img (nrows - 1 - i) j

/-- Embeds the combination step of `_identifySelfIntersectionHeightMap`
(support.py 629-631): `heightMap2 = upperImg.copy(); mask = lowerImg > 1.01;
heightMap2[mask] = lowerImg[mask]`. -/
def combineHeightMap (upperImg lowerImg : ℕ → ℕ → ℚ) : ℕ → ℕ → ℚ :=
  fun i j => if lowerImg i j > 101/100 then lowerImg i j else upperImg i j

/-- Embeds `_identifySelfIntersectionHeightMap` (support.py 599-633).  The two
rasterised height fields are oracle inputs: `upperImg` is the projection of the
overhang sub-region and `rawLowerImg` the projection of the upper cut mesh
before the `np.flipud` applied on line 626.  Returns the triple
`(heightMap2.T, upperImg, lowerImg)` as on line 633. -/
def identifySelfIntersectionHeightMap (nrows : ℕ) (upperImg rawLowerImg : ℕ → ℕ → ℚ) :
    (ℕ → ℕ → ℚ) × (ℕ → ℕ → ℚ) × (ℕ → ℕ → ℚ) :=
  let lowerImg := flipud nrows rawLowerImg
  let heightMap2 := combineHeightMap upperImg lowerImg
  (fun i j => heightMap2 j i, upperImg, lowerImg)

/-! ## Claim theorems: C10, C6, C5, C7 -/

/-- C10: for every `SupportStructure` whose `supportSurface` is unset, the
convenience methods `projectedSupportArea()` and `supportArea()` both return
0.0 instead of failing; for a set `supportSurface` they return the
flattened-polygon area and the mesh surface area respectively. -/
theorem c10_support_area_methods (s : SupportStructureState) :
    (s.supportSurface = none → projectedSupportArea s = 0 ∧ supportArea s = 0) ∧
    (∀ m : Mesh, s.supportSurface = some m →
      projectedSupportArea s = m.flattenedArea ∧ supportArea s = m.area) := by
  constructor
  · intro h
    simp [projectedSupportArea, supportArea, h]
  · intro m h
    simp [projectedSupportArea, supportArea, h]

/-- Witness for C10 at concrete states: an unset surface yields both areas 0,
and a set surface yields its flattened and mesh areas. -/
theorem c10_support_area_methods_witness :
    (projectedSupportArea ⟨none⟩ = 0 ∧ supportArea ⟨none⟩ = 0) ∧
    (projectedSupportArea ⟨some ⟨7, 3⟩⟩ = 3 ∧ supportArea ⟨some ⟨7, 3⟩⟩ = 7) :=
  ⟨(c10_support_area_methods ⟨none⟩).1 rfl,
   (c10_support_area_methods ⟨some ⟨7, 3⟩⟩).2 ⟨7, 3⟩ rfl⟩

/-- C6 (code bug): the claim asks that after setting `supportTeethBottomLength`
to `v`, reading the property returns `v` independently of the stored
`supportTeethTopLength`.  The source getter instead returns
`_supportTeethTopLength`: on the default state, setting the bottom length to 2
and reading it back yields 0.1 (the top length), not 2, even though the private
bottom-length attribute was indeed updated to 2. -/
theorem c6_supportTeethBottomLength_getter_bug :
    supportTeethBottomLength (setSupportTeethBottomLength gridBlockSupportDefaults 2) = 1/10 ∧
    (setSupportTeethBottomLength gridBlockSupportDefaults 2).supportTeethBottomLengthAttr = 2 ∧
    (1/10 : ℚ) ≠ 2 := by
  refine ⟨rfl, rfl, ?_⟩
  norm_num

/-- C5: `toothProfile` returns exactly the five vertices (0,0), ((c-b)/2, a),
((c-b)/2 + b, a), (c, 0), (c+d, 0) with a = supportTeethHeight,
b = supportTeethTopLength, c = supportTeethBottomLength,
d = supportTeethBaseInterval, each y-coordinate then shifted by
(-a + supportTeethUpperPenetration). -/
theorem c5_toothProfile_vertices (s : GridBlockSupportState) :
    toothProfile s =
      [((0 : ℚ), (0 : ℚ)),
       ((s.supportTeethBottomLengthAttr - s.supportTeethTopLengthAttr) / 2,
        s.supportTeethHeightAttr),
       ((s.supportTeethBottomLengthAttr - s.supportTeethTopLengthAttr) / 2 +
        s.supportTeethTopLengthAttr, s.supportTeethHeightAttr),
       (s.supportTeethBottomLengthAttr, 0),
       (s.supportTeethBottomLengthAttr + s.supportTeethBaseIntervalAttr, 0)].map
        (fun v => (v.1, v.2 + (-s.supportTeethHeightAttr + s.supportTeethUpperPenetrationAttr))) := by
  simp only [toothProfile, List.map_cons, List.map_nil, List.cons.injEq, Prod.mk.injEq,
    and_true]
  and_intros <;> ring_nf

/-! ## findOverhangEdges (support.py 330-381) -/

/-- Per-edge data consumed by `findOverhangEdges` at loop index `i`:
`ang` is the vertical inclination angle (degrees) the source computes from the
edge vertex delta via `arcsin`, `faceAdjacencyAngle` is
`np.rad2deg(mesh.face_adjacency_angles)[i]` (the dihedral angle between the two
adjacent faces), and `theta1`, `theta2` are the entries of
`getSupportAngles(part, [0,0,1])` at the two faces listed in
`mesh.face_adjacency[i]`.  The trigonometric evaluation is the mesh library's;
the values are carried here as data. -/
structure EdgeData where
  ang : ℚ
  faceAdjacencyAngle : ℚ
  theta1 : ℚ
  theta2 : ℚ
  deriving DecidableEq

/-- Test applied to each edge by `BaseSupportGenerator.findOverhangEdges`
(support.py 369-379): `np.abs(ang) < edgeOverhangAngle` and then
`adjacentFaceAngles[i] > overhangAngle and np.all(theta[adjacentFaces] > 89)`. -/
def overhangEdgeTest (overhangAngle edgeOverhangAngle : ℚ) (e : EdgeData) : Bool :=
  if |e.ang| < edgeOverhangAngle then
    decide (e.faceAdjacencyAngle > overhangAngle) &&
      (decide (e.theta1 > 89) && decide (e.theta2 > 89))
  else
    false

/-- Embeds `BaseSupportGenerator.findOverhangEdges` (support.py 330-381): the
sublist of edges passing `overhangEdgeTest`, in input order. -/
def findOverhangEdges (edges : List EdgeData) (overhangAngle edgeOverhangAngle : ℚ) :
    List EdgeData :=
  edges.filter (overhangEdgeTest overhangAngle edgeOverhangAngle)

/-- Edge test as the specification sentence words it: inclination magnitude
below `edgeAngle`, both incident faces exceed `surfaceAngle`, and the dihedral
angle between them exceeds `surfaceAngle`. -/
def specOverhangEdgeTest (surfaceAngle edgeAngle : ℚ) (e : EdgeData) : Bool :=
  decide (|e.ang| < edgeAngle) && decide (e.theta1 > surfaceAngle) &&
    decide (e.theta2 > surfaceAngle) && decide (e.faceAdjacencyAngle > surfaceAngle)

/-- Overhang-edge extraction as the specification claims it, for comparison
with the source-derived `findOverhangEdges`. -/
def specFindOverhangEdges (edges : List EdgeData) (surfaceAngle edgeAngle : ℚ) :
    List EdgeData :=
  edges.filter (specOverhangEdgeTest surfaceAngle edgeAngle)

/-! ## Gradient threshold and iso-contour extraction (support.py 458-470, 859-874) -/

/-- Embeds `np.deg2rad`. -/
noncomputable def deg2rad (x : ℝ) : ℝ := x * (Real.pi / 180)

/-- Embeds `BlockSupportGenerator.gradThreshold` (support.py 458-470):
`5.0 * np.tan(np.deg2rad(overhangAngle)) * rayProjectionDistance`. -/
noncomputable def gradThreshold (rayProjectionDistance overhangAngle : ℝ) : ℝ :=
  5 * Real.tan (deg2rad overhangAngle) * rayProjectionDistance

/-- Value of `BlockSupportGenerator._gaussian_blur_sigma` (support.py 428). -/
def gaussianBlurSigma : ℝ := 1

/-- Embeds the gradient-segmentation step of `identifySupportRegions`
(support.py 863-874) over an already padded height map.  `np.gradient`, the
magnitude, `scipy gaussian_filter` and `skimage find_contours` are external
numeric routines, taken as oracles; the embedding records exactly how the
source composes them: contours of the blurred gradient magnitude at level
`gradThreshold(rayProjectionResolution, overhangAngle)` under the mask
`heightMap > 2`. -/
noncomputable def segmentHeightMapRegions {Outline : Type}
    (gradientMagnitude : (ℕ → ℕ → ℝ) → (ℕ → ℕ → ℝ))
    (gaussianFilter : (ℕ → ℕ → ℝ) → ℝ → (ℕ → ℕ → ℝ))
    (findContoursAt : (ℕ → ℕ → ℝ) → ℝ → Set (ℕ × ℕ) → List Outline)
    (heightMap : ℕ → ℕ → ℝ)
    (rayProjectionResolution overhangAngle : ℝ) : List Outline :=
  let grads := gaussianFilter (gradientMagnitude heightMap) gaussianBlurSigma
  findContoursAt grads (gradThreshold rayProjectionResolution overhangAngle)
    { p | heightMap p.1 p.2 > 2 }

/-! ## Grid slice positions (support.py 2438-2473) -/

/-- Embeds `np.arange(start, stop, step)` for a positive step: the values
`start + k * step` for `0 ≤ k < ⌈(stop - start) / step⌉`. -/
def npArange (start stop step : ℚ) : List ℚ :=
  (List.range (Int.toNat ⌈(stop - start) / step⌉)).map (fun k => start + (k : ℚ) * step)

/-- Embeds the height computation of `GridBlockSupport.generateGridSlices`
(support.py 2448-2473) along one axis, given the support-volume bounds `b0 ≤ b1`
on that axis and the grid spacing: heights passed to `section_multiplane`
relative to the mid-plane origin. -/
def generateGridSliceHeights (b0 b1 spacing : ℚ) : List ℚ :=
  let mid := (b0 + b1) / 2
  let bottom := -1 * ((⌈(mid - b0) / spacing⌉ : ℤ) : ℚ) * spacing
  let top := 1 * ((⌈(b1 - mid) / spacing⌉ : ℤ) : ℚ) * spacing + 1 / 100000000
  npArange bottom top spacing

/-- World-coordinate slice plane offsets along one axis: the plane origin sits
at the bounds midpoint, so each height is taken relative to it. -/
def generateGridSliceOffsets (b0 b1 spacing : ℚ) : List ℚ :=
  (generateGridSliceHeights b0 b1 spacing).map (fun h => (b0 + b1) / 2 + h)

/-- Embeds `GridBlockSupport.generateGridSlices` at the level of slice-plane
positions: the X-axis offsets and Y-axis offsets produced for a support volume
with the given X and Y bounds and `gridSpacing = (sx, sy)`. -/
def generateGridSlices (bx0 bx1 by0 by1 sx sy : ℚ) : List ℚ × List ℚ :=
  (generateGridSliceOffsets bx0 bx1 sx, generateGridSliceOffsets by0 by1 sy)

/-! ## Control flow of BlockSupportGenerator.identifySupportRegions (support.py 718-1040)

The external geometry backends (flattening, polygon offsetting, Boolean CSG,
rasterisation, contour finding, spline simplification, triangulation and ray
casting) are oracles; an environment record per overhang sub-region stores the
observable results the control flow branches on.  Python exceptions are
`Except String`: the `raise` on support.py 915 escapes `identifySupportRegions`
uncaught, while the `try/except` around flattening (750-754) turns a flattening
failure into a skip. -/

/-- Value of `BlockSupportGenerator._intersectionVolumeTolerance`
(support.py 423). -/
def intersectionVolumeTolerance : ℚ := 50

/-- Provenance of an emitted `BlockSupportBase` within
`identifySupportRegions`. -/
inductive BlockKind
  /-- Emitted on support.py 828-832: `useApproxBasePlateSupport` path, support
  volume is the raw extruded prism. -/
  | approxBasePlate
  /-- Emitted from the sub-region loop after the downward ray cast found no
  hits and the bottom coordinates were snapped to z = 0 (support.py 974-979). -/
  | basePlate
  /-- Emitted from the sub-region loop with matching upward and downward ray
  casts, bottom conformal to the part (support.py 983-984). -/
  | conformal
  deriving DecidableEq

/-- An emitted block: the `intersectsPart` flag passed to the
`BlockSupportBase` constructor, plus embedding metadata recording which code
path emitted it and the volume of `part ∩ prism` (`cutMesh.volume`) for its
originating overhang region. -/
structure BlockSupportRec where
  intersectsPart : Bool
  kind : BlockKind
  regionCutVolume : ℚ
  deriving DecidableEq

/-- Observable results of the external calls for one buffered sub-region
polygon inside the loop on support.py 926-1034: its area, the number of
triangulated vertices (`len(coords)`), and the hit counts of the upward ray
cast against the overhang patch (`len(hitLoc)`) and of the downward ray cast
against `cutMeshUpper` (`len(hitLoc2)` when it is performed). -/
structure PolyData where
  area : ℚ
  numCoords : ℕ
  upperHitCount : ℕ
  lowerHitCount : ℕ
  deriving DecidableEq

/-- Observable results for one contour outline processed on support.py
887-924: whether the spline-merged path is closed, the entries of its
`polygons_full` (an entry may be `None`, hence `Option Unit`), and the list of
polygons produced by the simplify-and-buffer step on the first entry (the
`geoms` of a MultiPolygon, or a one-element list). -/
structure OutlineEnv where
  isClosed : Bool
  polygonsFull : List (Option Unit)
  bufferGeoms : List PolyData
  deriving DecidableEq

/-- Observable results of the external calls for one overhang sub-region of
the main loop (support.py 747-1036): whether `flattenSupportRegion` succeeded,
the area of the simplified and offset shape (`none` embeds Python `None`),
whether the MultiPolygon branch found at least one valid closed region
(support.py 770-780; `true` for the single-polygon branch), the volume of
`cutMesh = part ∩ prism`, and the contour outlines found on the blurred
gradient of the height map. -/
structure RegionEnv where
  flattenOk : Bool
  offsetShapeArea : Option ℚ
  offsetPolyOk : Bool
  cutMeshVolume : ℚ
  outlines : List OutlineEnv
  deriving DecidableEq

/-- Generator attributes `identifySupportRegions` branches on. -/
structure GenParams where
  minimumAreaThreshold : ℚ
  useApproxBasePlateSupport : Bool
  findSelfIntersectingSupport : Bool
  deriving DecidableEq

/-- Embeds the outline processing on support.py 901-924: skip (`continue`)
when the merged path is not closed, has no polygons, or its first polygon is
`None`; `raise Exception('Multi polygons - ...')` when more than one polygon
results; otherwise yield the buffered polygons. -/
def processOutline (o : OutlineEnv) : Except String (List PolyData) :=
  if o.isClosed = false ∨ o.polygonsFull = [] ∨ o.polygonsFull.head? = some none then
    Except.ok []
  else if 1 < o.polygonsFull.length then
    Except.error "Multi polygons - error please submit a bug report"
  else
    Except.ok o.bufferGeoms

/-- Embeds the loop over contour outlines (support.py 887-924) accumulating
the `polygons` list; a raised exception aborts the whole accumulation. -/
def collectPolygons : List OutlineEnv → Except String (List PolyData)
  | [] => Except.ok []
  | o :: os =>
    match processOutline o with
    | Except.error e => Except.error e
    | Except.ok ps =>
      match collectPolygons os with
      | Except.error e => Except.error e
      | Except.ok rest => Except.ok (ps ++ rest)

/-- Embeds the body of the loop over buffered polygons (support.py 926-1034):
skip when the area is below `minimumAreaThreshold`; perform the downward ray
cast only when `cutMesh.volume > _intersectionVolumeTolerance` (otherwise
`hitLoc2 = []`); on mismatching projection counts, emit a base-plate support
when the downward cast is empty and skip with a warning otherwise; in every
emitting branch the `BlockSupportBase` is constructed with
`intersectsPart=True` (support.py 1027-1030). -/
def processPolygon (cutMeshVolume minimumAreaThreshold : ℚ) (p : PolyData) :
    List BlockSupportRec :=
  if p.area < minimumAreaThreshold then
    []
  else
    let lowerHitCount : ℕ :=
      if intersectionVolumeTolerance < cutMeshVolume then p.lowerHitCount else 0
    if p.upperHitCount ≠ p.numCoords ∨ lowerHitCount ≠ p.upperHitCount then
      if lowerHitCount = 0 then
        [{ intersectsPart := true, kind := BlockKind.basePlate,
           regionCutVolume := cutMeshVolume }]
      else
        []
    else
      [{ intersectsPart := true, kind := BlockKind.conformal,
         regionCutVolume := cutMeshVolume }]

/-- Blocks appended by the polygon loop, in order. -/
def emitBlocks (cutMeshVolume minimumAreaThreshold : ℚ) : List PolyData → List BlockSupportRec
  | [] => []
  | p :: ps =>
    processPolygon cutMeshVolume minimumAreaThreshold p ++
      emitBlocks cutMeshVolume minimumAreaThreshold ps

/-- Embeds the sub-region reconstruction part of a region's iteration
(support.py 855-1034): collect the contour polygons, then run the polygon
loop. -/
def processSubRegions (params : GenParams) (r : RegionEnv) :
    Except String (List BlockSupportRec) :=
  match collectPolygons r.outlines with
  | Except.error e => Except.error e
  | Except.ok polys => Except.ok (emitBlocks r.cutMeshVolume params.minimumAreaThreshold polys)

/-- Embeds one iteration of the main region loop (support.py 747-1036):
skip on flattening failure; skip when the offset shape is `None` or its area is
below threshold; skip when the MultiPolygon branch found no valid region; if
`cutMesh.volume < _intersectionVolumeTolerance` then either emit a single
approximate base-plate block (with the constructor's default
`intersectsPart=False`) when `useApproxBasePlateSupport` is set, or fall
through to the sub-region reconstruction; otherwise skip the region entirely
when `findSelfIntersectingSupport` is false, else reconstruct sub-regions. -/
def processRegion (params : GenParams) (r : RegionEnv) :
    Except String (List BlockSupportRec) :=
  if r.flattenOk = false then
    Except.ok []
  else
    match r.offsetShapeArea with
    | none => Except.ok []
    | some offsetShapeArea =>
      if offsetShapeArea < params.minimumAreaThreshold then
        Except.ok []
      else if r.offsetPolyOk = false then
        Except.ok []
      else if r.cutMeshVolume < intersectionVolumeTolerance then
        if params.useApproxBasePlateSupport then
          Except.ok [{ intersectsPart := false, kind := BlockKind.approxBasePlate,
                       regionCutVolume := r.cutMeshVolume }]
        else
          processSubRegions params r
      else if params.findSelfIntersectingSupport = false then
        Except.ok []
      else
        processSubRegions params r

/-- Embeds `BlockSupportGenerator.identifySupportRegions` (support.py
718-1040): process the overhang sub-regions in order, accumulating the emitted
blocks; an uncaught exception from any region aborts the call. -/
def identifySupportRegions (params : GenParams) : List RegionEnv →
    Except String (List BlockSupportRec)
  | [] => Except.ok []
  | r :: rs =>
    match processRegion params r with
    | Except.error e => Except.error e
    | Except.ok bs =>
      match identifySupportRegions params rs with
      | Except.error e => Except.error e
      | Except.ok rest => Except.ok (bs ++ rest)

/-- Condition under which the outline processing on support.py 914-915 raises:
the merged path is closed, its first polygon exists and is not `None`, and
`polygons_full` has more than one entry. -/
def multiPolygonOutline (o : OutlineEnv) : Prop :=
  o.isClosed = true ∧ o.polygonsFull.head? ≠ some none ∧ 1 < o.polygonsFull.length

/-- Condition under which a region's iteration reaches the sub-region
reconstruction (the height-map and contour code, support.py 838-1036):
flattening succeeded, the offset shape exists with area at or above threshold,
the polygon branch found a valid region, and either the cut volume is below
the tolerance with `useApproxBasePlateSupport` unset, or it is at or above the
tolerance with `findSelfIntersectingSupport` set. -/
def reachesSubRegionLoop (params : GenParams) (r : RegionEnv) : Prop :=
  r.flattenOk = true ∧
  (∃ a, r.offsetShapeArea = some a ∧ ¬ a < params.minimumAreaThreshold) ∧
  r.offsetPolyOk = true ∧
  ((r.cutMeshVolume < intersectionVolumeTolerance ∧
      params.useApproxBasePlateSupport = false) ∨
   (¬ r.cutMeshVolume < intersectionVolumeTolerance ∧
      params.findSelfIntersectingSupport = true))

/-! ## Concrete environments used as witnesses and counterexamples -/

/-- A sub-region polygon of area 10 whose 4 triangulated vertices all hit the
overhang patch upward but find nothing downward. -/
def polyEnvA : PolyData :=
  { area := 10, numCoords := 4, upperHitCount := 4, lowerHitCount := 0 }

/-- A closed single-polygon outline buffering to `polyEnvA`. -/
def outlineEnvA : OutlineEnv :=
  { isClosed := true, polygonsFull := [some ()], bufferGeoms := [polyEnvA] }

/-- An overhang region whose prism misses the part entirely
(`cutMesh.volume = 0`) and yields the single outline `outlineEnvA`. -/
def regionEnvA : RegionEnv :=
  { flattenOk := true, offsetShapeArea := some 10, offsetPolyOk := true,
    cutMeshVolume := 0, outlines := [outlineEnvA] }

/-- Default-style generator parameters with `findSelfIntersectingSupport`. -/
def paramsA : GenParams :=
  { minimumAreaThreshold := 5, useApproxBasePlateSupport := false,
    findSelfIntersectingSupport := true }

/-- Generator parameters with `findSelfIntersectingSupport=False`. -/
def paramsB : GenParams :=
  { minimumAreaThreshold := 5, useApproxBasePlateSupport := false,
    findSelfIntersectingSupport := false }

/-- The block emitted for `regionEnvA`: a base-plate support flagged
`intersectsPart=True` by support.py 1027-1030. -/
def blockA : BlockSupportRec :=
  { intersectsPart := true, kind := BlockKind.basePlate, regionCutVolume := 0 }

/-- An outline whose spline-merged path resolves to two polygons. -/
def outlineEnvMulti : OutlineEnv :=
  { isClosed := true, polygonsFull := [some (), some ()], bufferGeoms := [] }

/-- A self-intersecting region (`cutMesh.volume = 100`) producing the
multi-polygon outline. -/
def regionEnvMulti : RegionEnv :=
  { flattenOk := true, offsetShapeArea := some 10, offsetPolyOk := true,
    cutMeshVolume := 100, outlines := [outlineEnvMulti] }

/-- A region whose flattening raises and is caught (support.py 750-754). -/
def regionEnvFlattenFail : RegionEnv :=
  { flattenOk := false, offsetShapeArea := some 10, offsetPolyOk := true,
    cutMeshVolume := 100, outlines := [] }

/-! ## Claim theorems: C3, C4, C9 -/

/-- C3 counterexample: with `surfaceAngle = 45` and `edgeAngle = 10`, a flat
edge (inclination 0) whose two incident faces are at 60 degrees from +z with an
80-degree dihedral angle satisfies every condition of the claim, yet the source
returns no edge for it: the source compares the face angles against the fixed
constant 89, not against `surfaceAngle`. -/
theorem c3_findOverhangEdges_counterexample :
    findOverhangEdges [⟨0, 80, 60, 60⟩] 45 10 ≠ specFindOverhangEdges [⟨0, 80, 60, 60⟩] 45 10 := by
  decide

/-- C3 amended: `findOverhangEdges` returns exactly the edges whose inclination
magnitude is below `edgeOverhangAngle`, whose dihedral angle exceeds
`overhangAngle`, and whose two incident faces both have inclination from +z
exceeding the fixed constant 89 degrees (not the surface angle parameter). -/
theorem c3_findOverhangEdges_amended (edges : List EdgeData)
    (overhangAngle edgeOverhangAngle : ℚ) :
    findOverhangEdges edges overhangAngle edgeOverhangAngle =
      edges.filter (fun e =>
        decide (|e.ang| < edgeOverhangAngle) && decide (e.faceAdjacencyAngle > overhangAngle) &&
          decide (e.theta1 > 89) && decide (e.theta2 > 89)) := by
  unfold findOverhangEdges
  apply List.filter_congr
  intro e _
  unfold overhangEdgeTest
  by_cases h : |e.ang| < edgeOverhangAngle
  · simp [h, Bool.and_assoc]
  · simp [h]

/-- C4: the gradient segmentation threshold equals
`5 * tan(overhangAngle in radians) * rayProjectionResolution`, the iso-contours
are extracted from the blurred gradient magnitude at exactly this threshold
restricted to pixels where the height map exceeds 2, and the threshold scales
linearly with the ray projection resolution. -/
theorem c4_gradThreshold_segmentation {Outline : Type}
    (gradientMagnitude : (ℕ → ℕ → ℝ) → (ℕ → ℕ → ℝ))
    (gaussianFilter : (ℕ → ℕ → ℝ) → ℝ → (ℕ → ℕ → ℝ))
    (findContoursAt : (ℕ → ℕ → ℝ) → ℝ → Set (ℕ × ℕ) → List Outline)
    (heightMap : ℕ → ℕ → ℝ) (r θ : ℝ) :
    segmentHeightMapRegions gradientMagnitude gaussianFilter findContoursAt heightMap r θ =
      findContoursAt (gaussianFilter (gradientMagnitude heightMap) 1)
        (5 * Real.tan (θ * (Real.pi / 180)) * r) { p | heightMap p.1 p.2 > 2 } ∧
    (∀ c : ℝ, gradThreshold (c * r) θ = c * gradThreshold r θ) := by
  constructor
  · rfl
  · intro c
    unfold gradThreshold
    ring

/-- Evaluation of the slice offsets for an axis spanning [-5, 5] with grid
spacing 3: the midpoint is 0, the heights run from -2*3 to 2*3 in steps of 3. -/
theorem gridSliceOffsetsEval : generateGridSliceOffsets (-5) 5 3 = [-6, -3, 0, 3, 6] := by
  have hc1 : (⌈((5:ℚ) - (-5 + 5) / 2) / 3⌉ : ℤ) = 2 := by
    rw [Int.ceil_eq_iff]
    norm_num
  have hc2 : (⌈(((-5:ℚ) + 5) / 2 - -5) / 3⌉ : ℤ) = 2 := by
    rw [Int.ceil_eq_iff]
    norm_num
  simp only [generateGridSliceOffsets, generateGridSliceHeights, npArange, hc1, hc2]
  have hc3 : (⌈((1:ℚ) * ((2:ℤ) : ℚ) * 3 + 1 / 100000000 - -1 * ((2:ℤ) : ℚ) * 3) / 3⌉ : ℤ) = 5 := by
    rw [Int.ceil_eq_iff]
    norm_num
  rw [hc3]
  norm_num [show List.range (Int.toNat 5) = [0, 1, 2, 3, 4] from rfl]

/-- C9 counterexample: for a support volume spanning [-5, 5] in X and Y with
`gridSpacing = (3, 3)`, the slice plane offsets are not the claimed
{-4.5, -1.5, 1.5, 4.5}: the source places planes at integer multiples of the
spacing away from the bounds midpoint, including one at the midpoint itself. -/
theorem c9_generateGridSlices_counterexample :
    generateGridSlices (-5) 5 (-5) 5 3 3 ≠
      ([-9/2, -3/2, 3/2, 9/2], [-9/2, -3/2, 3/2, 9/2]) := by
  unfold generateGridSlices
  rw [gridSliceOffsetsEval]
  intro h
  have h1 := congrArg (fun p : List ℚ × List ℚ => p.1.length) h
  simp at h1

/-- C9 amended: for a support volume spanning [-5, 5] in X and Y with
`gridSpacing = (3, 3)`, the X-slice plane offsets are exactly
{-6, -3, 0, 3, 6} and the Y-slice offsets likewise: multiples of the spacing
placed symmetrically around the bounding-box centre, with a plane through the
centre, extending one step beyond each bound. -/
theorem c9_generateGridSlices_amended :
    generateGridSlices (-5) 5 (-5) 5 3 3 = ([-6, -3, 0, 3, 6], [-6, -3, 0, 3, 6]) ∧
    ([-6, -3, 0, 3, 6] : List ℚ).map (fun x => -x) =
      ([-6, -3, 0, 3, 6] : List ℚ).reverse := by
  refine ⟨?_, by norm_num⟩
  unfold generateGridSlices
  rw [gridSliceOffsetsEval]

/-! ## Helper lemmas about the identifySupportRegions control flow -/

/-- Every block the polygon loop emits carries `intersectsPart=true`, records
the region's cut volume, and is not from the approximate base-plate path. -/
theorem processPolygon_mem {cutMeshVolume minimumAreaThreshold : ℚ} {p : PolyData}
    {b : BlockSupportRec}
    (hb : b ∈ processPolygon cutMeshVolume minimumAreaThreshold p) :
    b.intersectsPart = true ∧ b.regionCutVolume = cutMeshVolume ∧
      b.kind ≠ BlockKind.approxBasePlate := by
  simp only [processPolygon] at hb
  split_ifs at hb <;> simp_all

/-- Membership in the polygon loop's output comes from some polygon. -/
theorem emitBlocks_mem {cutMeshVolume minimumAreaThreshold : ℚ} {b : BlockSupportRec} :
    ∀ {polys : List PolyData}, b ∈ emitBlocks cutMeshVolume minimumAreaThreshold polys →
      ∃ p, b ∈ processPolygon cutMeshVolume minimumAreaThreshold p
  | [], h => by simp [emitBlocks] at h
  | p :: ps, h => by
    simp only [emitBlocks, List.mem_append] at h
    cases h with
    | inl h2 => exact ⟨p, h2⟩
    | inr h2 => exact emitBlocks_mem h2

/-- Every block the sub-region reconstruction emits carries
`intersectsPart=true` and the region's cut volume. -/
theorem processSubRegions_mem {params : GenParams} {r : RegionEnv}
    {bs : List BlockSupportRec} (h : processSubRegions params r = Except.ok bs)
    {b : BlockSupportRec} (hb : b ∈ bs) :
    b.intersectsPart = true ∧ b.regionCutVolume = r.cutMeshVolume ∧
      b.kind ≠ BlockKind.approxBasePlate := by
  unfold processSubRegions at h
  cases hc : collectPolygons r.outlines with
  | error e => rw [hc] at h; cases h
  | ok polys =>
    rw [hc] at h
    cases h
    obtain ⟨p, hp⟩ := emitBlocks_mem hb
    exact processPolygon_mem hp

/-- Characterisation of the blocks a single region iteration can emit. -/
theorem processRegion_mem {params : GenParams} {r : RegionEnv} {bs : List BlockSupportRec}
    (h : processRegion params r = Except.ok bs) {b : BlockSupportRec} (hb : b ∈ bs) :
    b.regionCutVolume = r.cutMeshVolume ∧
    ((b.kind = BlockKind.approxBasePlate ∧ b.intersectsPart = false ∧
        r.cutMeshVolume < intersectionVolumeTolerance) ∨
      (b.kind ≠ BlockKind.approxBasePlate ∧ b.intersectsPart = true)) ∧
    (params.findSelfIntersectingSupport = false →
      r.cutMeshVolume < intersectionVolumeTolerance) := by
  unfold processRegion at h
  split at h
  · cases h; exact absurd hb (List.not_mem_nil b)
  · split at h
    · cases h; exact absurd hb (List.not_mem_nil b)
    · next a heq =>
      split_ifs at h with harea hpoly hvol happ hfind
      · cases h; exact absurd hb (List.not_mem_nil b)
      · cases h; exact absurd hb (List.not_mem_nil b)
      · cases h
        rw [List.mem_singleton] at hb
        subst hb
        exact ⟨rfl, Or.inl ⟨rfl, rfl, hvol⟩, fun _ => hvol⟩
      · have h2 := processSubRegions_mem h hb
        exact ⟨h2.2.1, Or.inr ⟨h2.2.2, h2.1⟩, fun _ => hvol⟩
      · cases h; exact absurd hb (List.not_mem_nil b)
      · have h2 := processSubRegions_mem h hb
        exact ⟨h2.2.1, Or.inr ⟨h2.2.2, h2.1⟩, fun hff => absurd hff hfind⟩

/-- Every block in the final list comes from some region's iteration. -/
theorem identifySupportRegions_mem {params : GenParams} :
    ∀ {regions : List RegionEnv} {blocks : List BlockSupportRec},
      identifySupportRegions params regions = Except.ok blocks →
      ∀ {b : BlockSupportRec}, b ∈ blocks →
        ∃ r ∈ regions, ∃ bs, processRegion params r = Except.ok bs ∧ b ∈ bs
  | [], blocks, h, b, hb => by
    simp only [identifySupportRegions] at h
    cases h
    exact absurd hb (List.not_mem_nil b)
  | r :: rs, blocks, h, b, hb => by
    simp only [identifySupportRegions] at h
    cases hr : processRegion params r with
    | error e => rw [hr] at h; cases h
    | ok bs =>
      rw [hr] at h
      cases hrs : identifySupportRegions params rs with
      | error e => rw [hrs] at h; cases h
      | ok rest =>
        rw [hrs] at h
        cases h
        rcases List.mem_append.mp hb with hmem | hmem
        · exact ⟨r, List.mem_cons_self r rs, bs, hr, hmem⟩
        · obtain ⟨r2, hr2, bs2, hpr2, hb2⟩ := identifySupportRegions_mem hrs hmem
          exact ⟨r2, List.mem_cons_of_mem r hr2, bs2, hpr2, hb2⟩

/-- A multi-polygon outline makes `processOutline` raise. -/
theorem processOutline_multiPolygon {o : OutlineEnv} (h : multiPolygonOutline o) :
    ∃ e, processOutline o = Except.error e := by
  obtain ⟨h1, h2, h3⟩ := h
  have hne : ¬ (o.isClosed = false ∨ o.polygonsFull = [] ∨
      o.polygonsFull.head? = some none) := by
    push_neg
    refine ⟨by simp [h1], ?_, h2⟩
    intro hnil
    rw [hnil] at h3
    simp at h3
  refine ⟨"Multi polygons - error please submit a bug report", ?_⟩
  unfold processOutline
  rw [if_neg hne, if_pos h3]

/-- An outline that raises makes the whole outline loop raise. -/
theorem collectPolygons_error {o : OutlineEnv} {e : String}
    (he : processOutline o = Except.error e) :
    ∀ {outlines : List OutlineEnv}, o ∈ outlines →
      ∃ e2, collectPolygons outlines = Except.error e2
  | [], hmem => absurd hmem (List.not_mem_nil o)
  | o2 :: os, hmem => by
    simp only [collectPolygons]
    rcases List.mem_cons.mp hmem with heqo | hmem2
    · subst heqo
      rw [he]
      exact ⟨e, rfl⟩
    · cases hp : processOutline o2 with
      | error e3 => exact ⟨e3, rfl⟩
      | ok ps =>
        obtain ⟨e2, h2⟩ := collectPolygons_error he hmem2
        rw [h2]
        exact ⟨e2, rfl⟩

/-- An outline-loop exception propagates out of the sub-region step. -/
theorem processSubRegions_error {params : GenParams} {r : RegionEnv} {e : String}
    (h : collectPolygons r.outlines = Except.error e) :
    processSubRegions params r = Except.error e := by
  unfold processSubRegions
  rw [h]

/-- A region that reaches the sub-region reconstruction behaves as
`processSubRegions`. -/
theorem processRegion_reaches {params : GenParams} {r : RegionEnv}
    (hreach : reachesSubRegionLoop params r) :
    processRegion params r = processSubRegions params r := by
  obtain ⟨h1, ⟨a, ha, hamin⟩, h3, h4⟩ := hreach
  unfold processRegion
  rw [if_neg (by simp [h1])]
  split
  · next heq => rw [heq] at ha; cases ha
  · next a2 heq =>
    rw [heq] at ha
    injection ha with ha2
    subst ha2
    rw [if_neg hamin, if_neg (by simp [h3])]
    rcases h4 with ⟨hvol, happ⟩ | ⟨hvol, hfind⟩
    · rw [if_pos hvol, if_neg (by simp [happ])]
    · rw [if_neg hvol, if_neg (by simp [hfind])]

/-- A region iteration that raises makes the whole call raise. -/
theorem identifySupportRegions_error {params : GenParams} {r : RegionEnv} {e : String}
    (he : processRegion params r = Except.error e) :
    ∀ {regions : List RegionEnv}, r ∈ regions →
      ∃ e2, identifySupportRegions params regions = Except.error e2
  | [], hmem => absurd hmem (List.not_mem_nil r)
  | r2 :: rs, hmem => by
    simp only [identifySupportRegions]
    rcases List.mem_cons.mp hmem with heqr | hmem2
    · subst heqr
      rw [he]
      exact ⟨e, rfl⟩
    · cases hp : processRegion params r2 with
      | error e3 => exact ⟨e3, rfl⟩
      | ok bs =>
        obtain ⟨e2, h2⟩ := identifySupportRegions_error he hmem2
        rw [h2]
        exact ⟨e2, rfl⟩

/-- A region whose flattening fails contributes nothing. -/
theorem processRegion_flattenFail {params : GenParams} {r : RegionEnv}
    (h : r.flattenOk = false) : processRegion params r = Except.ok [] := by
  unfold processRegion
  rw [if_pos h]

/-- Dropping a region whose iteration yields no blocks and no exception leaves
the call's result unchanged. -/
theorem identifySupportRegions_skip {params : GenParams} {r : RegionEnv}
    (h : processRegion params r = Except.ok []) :
    ∀ (pre post : List RegionEnv),
      identifySupportRegions params (pre ++ r :: post) =
        identifySupportRegions params (pre ++ post)
  | [], post => by
    simp only [List.nil_append, identifySupportRegions, h]
    cases hp : identifySupportRegions params post <;> simp
  | p :: pre, post => by
    show identifySupportRegions params (p :: (pre ++ r :: post)) =
      identifySupportRegions params (p :: (pre ++ post))
    cases hp : processRegion params p with
    | error e => simp only [identifySupportRegions, hp]
    | ok bs => simp only [identifySupportRegions, hp, identifySupportRegions_skip h pre post]

/-! ## Claim theorems: C1, C2, C8 -/

/-- C1 counterexample: a region whose prism does not intersect the part
(`cutMesh.volume = 0 < 50`), processed with `useApproxBasePlateSupport=False`,
falls through to the sub-region loop; its sub-region finds no downward ray
hits, so the bottom is snapped to the base plate, yet the emitted block has
`intersectsPart=True` — against the claimed equivalence with the intersection
volume exceeding the tolerance, and against the claimed
`intersectsPart=false` for such base-plate sub-regions. -/
theorem c1_intersectsPart_counterexample :
    identifySupportRegions paramsA [regionEnvA] = Except.ok [blockA] ∧
    blockA.intersectsPart = true ∧
    ¬ intersectionVolumeTolerance < blockA.regionCutVolume ∧
    blockA.kind = BlockKind.basePlate := by
  refine ⟨rfl, rfl, by decide, rfl⟩

/-- C1 amended: for every emitted block, `intersectsPart` is false exactly for
the approximate base-plate path (whose region's intersection volume with the
part is below the tolerance 50); every block emitted by the sub-region
reconstruction loop carries `intersectsPart=true`, including those whose
downward ray casts find no hit and whose bottom is snapped to the base plate
Z=0. -/
theorem c1_intersectsPart_flag (params : GenParams) (regions : List RegionEnv)
    (blocks : List BlockSupportRec)
    (hok : identifySupportRegions params regions = Except.ok blocks)
    (b : BlockSupportRec) (hb : b ∈ blocks) :
    (b.intersectsPart = false ↔ b.kind = BlockKind.approxBasePlate) ∧
    (b.kind = BlockKind.approxBasePlate →
      b.regionCutVolume < intersectionVolumeTolerance) ∧
    (b.kind = BlockKind.basePlate → b.intersectsPart = true) := by
  obtain ⟨r, hr, bs, hpr, hbs⟩ := identifySupportRegions_mem hok hb
  obtain ⟨hvol, hcase, _⟩ := processRegion_mem hpr hbs
  rcases hcase with ⟨hk, hip, hlt⟩ | ⟨hk, hip⟩
  · refine ⟨iff_of_true hip hk, fun _ => by rw [hvol]; exact hlt, ?_⟩
    intro hbp
    rw [hk] at hbp
    cases hbp
  · exact ⟨iff_of_false (by simp [hip]) hk, fun hk2 => absurd hk2 hk, fun _ => hip⟩

/-- Witness for the amended C1 on the concrete base-plate environment. -/
theorem c1_intersectsPart_flag_witness :
    (blockA.intersectsPart = false ↔ blockA.kind = BlockKind.approxBasePlate) ∧
    (blockA.kind = BlockKind.approxBasePlate →
      blockA.regionCutVolume < intersectionVolumeTolerance) ∧
    (blockA.kind = BlockKind.basePlate → blockA.intersectsPart = true) :=
  c1_intersectsPart_flag paramsA [regionEnvA] [blockA] rfl blockA
    (List.mem_singleton.mpr rfl)

/-- C2 counterexample: with `findSelfIntersectingSupport=False`, the region
whose cut volume is below the tolerance still falls through to the sub-region
loop (the `elif` guarding the flag is only reached when the volume is at or
above the tolerance), and the emitted block carries `intersectsPart=True`,
contradicting the claim that all emitted blocks have `intersectsPart=false`. -/
theorem c2_findSelfIntersecting_counterexample :
    identifySupportRegions paramsB [regionEnvA] = Except.ok [blockA] ∧
    blockA.intersectsPart ≠ false := by
  exact ⟨rfl, by decide⟩

/-- C2 amended: with `findSelfIntersectingSupport=false`, every emitted block
originates from a region whose CSG intersection volume with the part is below
the tolerance 50 — no support volume that self-intersects the part is emitted —
but emitted blocks from the sub-region loop still carry `intersectsPart=true`. -/
theorem c2_findSelfIntersecting_false (params : GenParams)
    (hf : params.findSelfIntersectingSupport = false)
    (regions : List RegionEnv) (blocks : List BlockSupportRec)
    (hok : identifySupportRegions params regions = Except.ok blocks)
    (b : BlockSupportRec) (hb : b ∈ blocks) :
    b.regionCutVolume < intersectionVolumeTolerance := by
  obtain ⟨r, hr, bs, hpr, hbs⟩ := identifySupportRegions_mem hok hb
  obtain ⟨hvol, _, himp⟩ := processRegion_mem hpr hbs
  rw [hvol]
  exact himp hf

/-- Witness for the amended C2 on the concrete base-plate environment. -/
theorem c2_findSelfIntersecting_false_witness :
    blockA.regionCutVolume < intersectionVolumeTolerance :=
  c2_findSelfIntersecting_false paramsB rfl [regionEnvA] [blockA] rfl blockA
    (List.mem_singleton.mpr rfl)

/-- C8: when a simplified contour boundary of a region that reached sub-region
reconstruction resolves to more than one closed polygon, the whole call aborts
with the raised internal error; by contrast a failed flattening only skips its
region, leaving the returned result exactly that of the remaining regions. -/
theorem c8_error_handling (params : GenParams) (regions : List RegionEnv) :
    ((∃ r ∈ regions, reachesSubRegionLoop params r ∧
        ∃ o ∈ r.outlines, multiPolygonOutline o) →
      ∃ e, identifySupportRegions params regions = Except.error e) ∧
    (∀ (pre post : List RegionEnv) (r : RegionEnv), regions = pre ++ r :: post →
      r.flattenOk = false →
      identifySupportRegions params regions = identifySupportRegions params (pre ++ post)) := by
  constructor
  · rintro ⟨r, hr, hreach, o, ho, hmp⟩
    obtain ⟨e, he⟩ := processOutline_multiPolygon hmp
    obtain ⟨e2, he2⟩ := collectPolygons_error he ho
    have hpr : processRegion params r = Except.error e2 := by
      rw [processRegion_reaches hreach]
      exact processSubRegions_error he2
    exact identifySupportRegions_error hpr hr
  · rintro pre post r rfl hff
    exact identifySupportRegions_skip (processRegion_flattenFail hff) pre post

/-- Witness for C8: the multi-polygon environment aborts the whole call, and a
flatten-failing region is skipped without affecting the (empty) remainder. -/
theorem c8_error_handling_witness :
    (∃ e, identifySupportRegions paramsA [regionEnvMulti] = Except.error e) ∧
    identifySupportRegions paramsA ([] ++ regionEnvFlattenFail :: []) =
      identifySupportRegions paramsA ([] ++ []) := by
  constructor
  · exact (c8_error_handling paramsA [regionEnvMulti]).1
      ⟨regionEnvMulti, List.mem_singleton.mpr rfl,
        ⟨rfl, ⟨10, rfl, by decide⟩, rfl, Or.inr ⟨by decide, rfl⟩⟩,
        outlineEnvMulti, List.mem_singleton.mpr rfl, ⟨rfl, by decide, by decide⟩⟩
  · exact (c8_error_handling paramsA ([] ++ regionEnvFlattenFail :: [])).2 [] []
      regionEnvFlattenFail rfl rfl

/-- C7: in the depth-map construction, for every pixel the combined height map
equals the (vertically flipped) lower image where that exceeds 1.01 and the
upper image elsewhere.  The first component of the returned triple is the
transposed combined map, so indexing it at (y, x) reads combined pixel (x, y). -/
theorem c7_heightMap_combination (nrows : ℕ) (upperImg rawLowerImg : ℕ → ℕ → ℚ) (x y : ℕ) :
    (identifySelfIntersectionHeightMap nrows upperImg rawLowerImg).1 y x =
      if flipud nrows rawLowerImg x y > 101/100 then flipud nrows rawLowerImg x y
      else upperImg x y := rfl

end Pyslm
